import Mathlib

/-!
Shallow embedding of `src/first_proj_crewai_debate/src/first_proj_crewai_debate/example_main.py`,
the CLI entry point of the Crew-AI debate repository, together with theorems
about its input-assembly, dispatch and error-handling behaviour.

Modelling conventions:
* A Python dict with string keys and string values is an association list
  (`Inputs`); `dget` is `dict.get` (first matching key), `dset` is
  `dict.__setitem__` (update in place if the key exists, else append),
  matching Python's insertion-order semantics.
* Python truthiness of an optional string (`if not inputs.get(k)`) is
  `truthy`: `None` and the empty string are falsy.
* Wall-clock time is a parameter `year : Nat`; `str(datetime.now().year)`
  is `toString year`, assumed constant during one invocation.
* The external framework object (`Debate().crew()`) is opaque: a `Crew`
  record of four functions, each returning a result string or raising.
  Exceptions are `PyExc`: either `KeyboardInterrupt` (a `BaseException`,
  not caught by `except Exception`) or an ordinary exception with message
  text.
* Every `print(...)` call appends its argument to the `out` (stdout) list;
  nothing in this program writes to stderr (`err` stays empty).
* Because Python passes dicts by reference and `validate_inputs` assigns
  into its argument, the caller's dict object after `run/train/test`
  returns is the validated dict; the `finalInputs` field records it.
-/

namespace DebateCrew

/-- A Python dict with string keys and values, in insertion order. -/
abbrev Inputs := List (String × String)

/-- Python `d.get(key)`: value at the first matching key, if any. -/
def dget : Inputs → String → Option String
  | [], _ => none
  | (k, v) :: rest, key => if k = key then some v else dget rest key

/-- Python `d[key] = val`: replace in place if the key exists, else append. -/
def dset : Inputs → String → String → Inputs
  | [], key, val => [(key, val)]
  | (k, v) :: rest, key, val =>
    if k = key then (key, val) :: rest else (k, v) :: dset rest key val

/-- Python `d[key]` read (keys we read are always present after validation). -/
def dindex (m : Inputs) (k : String) : String := (dget m k).getD ""

/-- Python truthiness of an optional string: `None` and `""` are falsy. -/
def truthy : Option String → Bool
  | none => false
  | some s => s != ""

/-- The fixed default debate motion from `get_default_inputs`. -/
def defaultMotion : String := "AI LLMs will significantly improve human productivity"

/-- `get_default_inputs()`: default motion plus the current year as a string. -/
def get_default_inputs (year : Nat) : Inputs :=
  [("motion", defaultMotion), ("current_year", toString year)]

/-- `validate_inputs(inputs)`: fill `motion` and `current_year` with the
defaults when missing or empty.  In Python this mutates `inputs` in place
and returns the same object. -/
def validate_inputs (year : Nat) (inputs : Inputs) : Inputs :=
  let i1 := if truthy (dget inputs "motion") then inputs
            else dset inputs "motion" (dindex (get_default_inputs year) "motion")
  if truthy (dget i1 "current_year") then i1
  else dset i1 "current_year" (dindex (get_default_inputs year) "current_year")

theorem truthy_none : truthy none = false := rfl

theorem truthy_some (s : String) : truthy (some s) = true ↔ s ≠ "" := by
  simp [truthy]

theorem dget_dset_self (m : Inputs) (k v : String) :
    dget (dset m k v) k = some v := by
  induction m with
  | nil => simp [dget, dset]
  | cons p rest ih =>
    obtain ⟨k0, v0⟩ := p
    by_cases h : k0 = k
    · simp [dget, dset, h]
    · simp [dget, dset, h, ih]

theorem dget_dset_of_ne (m : Inputs) (k k0 v : String) (h : k0 ≠ k) :
    dget (dset m k v) k0 = dget m k0 := by
  induction m with
  | nil => simp [dget, dset, Ne.symm h]
  | cons p rest ih =>
    obtain ⟨k1, v1⟩ := p
    by_cases h1 : k1 = k
    · subst h1
      simp [dget, dset, Ne.symm h]
    · simp only [dset, if_neg h1]
      by_cases h2 : k1 = k0
      · simp [dget, h2]
      · simp [dget, h2, ih]

theorem dset_self_of_dget (m : Inputs) (k v : String) (h : dget m k = some v) :
    dset m k v = m := by
  induction m with
  | nil => simp [dget] at h
  | cons p rest ih =>
    obtain ⟨k1, v1⟩ := p
    by_cases h1 : k1 = k
    · subst h1
      simp [dget] at h
      simp [dset, h]
    · simp [dget, h1] at h
      simp [dset, h1, ih h]

/-- Looking up `motion` after validation: the original value when truthy,
the default motion otherwise. -/
theorem validate_motion_lookup (year : Nat) (m : Inputs) :
    dget (validate_inputs year m) "motion" =
      if truthy (dget m "motion") then dget m "motion" else some defaultMotion := by
  unfold validate_inputs
  by_cases h : truthy (dget m "motion") = true
  · simp only [h, if_true]
    split
    · rfl
    · rw [dget_dset_of_ne _ _ _ _ (by decide)]
  · simp only [eq_false_of_ne_true h, if_false, Bool.false_eq_true]
    split
    · rw [dget_dset_self]
      rfl
    · rw [dget_dset_of_ne _ _ _ _ (by decide), dget_dset_self]
      rfl

/-- Looking up `current_year` after validation: the original value when
truthy, the string form of the current year otherwise. -/
theorem validate_cy_lookup (year : Nat) (m : Inputs) :
    dget (validate_inputs year m) "current_year" =
      if truthy (dget m "current_year") then dget m "current_year"
      else some (toString year) := by
  unfold validate_inputs
  have hstep : ∀ i1 : Inputs, dget i1 "current_year" = dget m "current_year" →
      dget (if truthy (dget i1 "current_year") then i1
            else dset i1 "current_year" (dindex (get_default_inputs year) "current_year"))
        "current_year" =
      if truthy (dget m "current_year") then dget m "current_year"
      else some (toString year) := by
    intro i1 hi
    rw [← hi]
    split
    · rfl
    · rw [dget_dset_self]
      rfl
  split
  · exact hstep m rfl
  · exact hstep _ (dget_dset_of_ne _ _ _ _ (by decide))

/-- Validation changes no key other than `motion` and `current_year`. -/
theorem validate_other_lookup (year : Nat) (m : Inputs) (k : String)
    (h1 : k ≠ "motion") (h2 : k ≠ "current_year") :
    dget (validate_inputs year m) k = dget m k := by
  unfold validate_inputs
  have hstep : ∀ i1 : Inputs, dget i1 k = dget m k →
      dget (if truthy (dget i1 "current_year") then i1
            else dset i1 "current_year" (dindex (get_default_inputs year) "current_year"))
        k = dget m k := by
    intro i1 hi
    split
    · exact hi
    · rw [dget_dset_of_ne _ _ _ _ h2, hi]
  split
  · exact hstep m rfl
  · exact hstep _ (dget_dset_of_ne _ _ _ _ h1)

/-- When both keys are already truthy, validation is the identity. -/
theorem validate_noop (year : Nat) (m : Inputs)
    (h1 : truthy (dget m "motion") = true)
    (h2 : truthy (dget m "current_year") = true) :
    validate_inputs year m = m := by
  unfold validate_inputs
  simp [h1, h2]

/-- The decimal digit list of a natural number is never empty (so
`str(year)` is never the empty string and is always truthy). -/
theorem toDigitsCore_length_le (b : Nat) :
    ∀ (fuel n : Nat) (ds : List Char),
      ds.length ≤ (Nat.toDigitsCore b fuel n ds).length := by
  intro fuel
  induction fuel with
  | zero => intro n ds; simp [Nat.toDigitsCore]
  | succ f ih =>
    intro n ds
    unfold Nat.toDigitsCore
    by_cases h : n / b = 0
    · simp [h]
    · simp only [h, if_false]
      calc ds.length ≤ (Nat.digitChar (n % b) :: ds).length := by simp
        _ ≤ _ := ih _ _

theorem toDigits_ne_nil (b n : Nat) : Nat.toDigits b n ≠ [] := by
  unfold Nat.toDigits
  unfold Nat.toDigitsCore
  by_cases h : n / b = 0
  · simp [h]
  · simp only [h, if_false]
    intro hc
    have hl := toDigitsCore_length_le b n (n / b) [Nat.digitChar (n % b)]
    rw [hc] at hl
    simp at hl

theorem toString_nat_ne_empty (n : Nat) : toString n ≠ "" := by
  show Nat.repr n ≠ ""
  unfold Nat.repr
  intro hc
  have hd : (Nat.toDigits 10 n).asString.data = String.data "" := by rw [hc]
  simp only [List.asString] at hd
  exact toDigits_ne_nil 10 n hd

/-- `validate_inputs` is idempotent. -/
theorem validate_idem (year : Nat) (m : Inputs) :
    validate_inputs year (validate_inputs year m) = validate_inputs year m := by
  apply validate_noop
  · rw [validate_motion_lookup]
    split
    · next h => exact h
    · decide
  · rw [validate_cy_lookup]
    split
    · next h => exact h
    · rw [truthy_some]
      exact toString_nat_ne_empty year

theorem dget_default_motion (year : Nat) :
    dget (get_default_inputs year) "motion" = some defaultMotion := by
  simp [get_default_inputs, dget]

theorem dget_default_cy (year : Nat) :
    dget (get_default_inputs year) "current_year" = some (toString year) := by
  simp [get_default_inputs, dget]

/-- Validating the default inputs changes nothing. -/
theorem validate_default (year : Nat) :
    validate_inputs year (get_default_inputs year) = get_default_inputs year :=
  validate_noop year (get_default_inputs year)
    (by rw [dget_default_motion]; decide)
    (by rw [dget_default_cy]
        exact (truthy_some _).mpr (toString_nat_ne_empty year))

/-- A Python exception escaping a delegated call: `KeyboardInterrupt`
derives `BaseException` (so `except Exception` does not catch it); every
other exception is `exc` with its message text. -/
inductive PyExc where
  | keyboardInterrupt : PyExc
  | exc (msg : String) : PyExc
deriving DecidableEq

/-- The opaque framework object `Debate().crew()`: four operations, each
returning a printable result or raising. -/
structure Crew where
  kickoff : Inputs → Except PyExc String
  train : Int → String → Inputs → Except PyExc String
  replay : String → Except PyExc String
  test : Int → String → Inputs → Except PyExc String

/-- One delegated framework call, with the arguments it was given. -/
inductive CrewCall where
  | kickoff (inputs : Inputs) : CrewCall
  | train (nIterations : Int) (filename : String) (inputs : Inputs) : CrewCall
  | replay (taskId : String) : CrewCall
  | test (nIterations : Int) (evalLLM : String) (inputs : Inputs) : CrewCall
deriving DecidableEq

/-- The `inputs` mapping a delegated call was given, if it takes one. -/
def CrewCall.argInputs : CrewCall → Option Inputs
  | .kickoff i => some i
  | .train _ _ i => some i
  | .replay _ => none
  | .test _ _ i => some i

/-- The iteration count a delegated call was given, if it takes one. -/
def CrewCall.argIterations : CrewCall → Option Int
  | .kickoff _ => none
  | .train n _ _ => some n
  | .replay _ => none
  | .test n _ _ => some n

/-- Run one recorded call against a concrete crew. -/
def Crew.callOp (crew : Crew) : CrewCall → Except PyExc String
  | .kickoff i => crew.kickoff i
  | .train n f i => crew.train n f i
  | .replay t => crew.replay t
  | .test n e i => crew.test n e i

/-- Observable behaviour of one of the module-level functions `run`,
`train`, `replay`, `test`: the delegated calls it made, its stdout and
stderr print calls, whether it returned or let an exception escape, and
the final state of the (mutated-in-place) inputs dict it worked on. -/
structure OpResult where
  calls : List CrewCall
  out : List String
  err : List String
  res : Except PyExc Unit
  finalInputs : Option Inputs

/-- The two opening lines of `run`, `train` and `test`:
`if inputs is None: inputs = get_default_inputs()` then
`inputs = validate_inputs(inputs)`. -/
def resolveInputs (year : Nat) (inputs? : Option Inputs) : Inputs :=
  validate_inputs year
    (match inputs? with
     | none => get_default_inputs year
     | some m => m)

/-- The separator `"-" * 50` printed by the module-level functions. -/
def dashes : String := String.mk (List.replicate 50 (Char.ofNat 45))

/-- The separator `"=" * 50` printed by `run`. -/
def equalsLine : String := String.mk (List.replicate 50 (Char.ofNat 61))

/-- The function `run(inputs=None)`. -/
def run (crew : Crew) (year : Nat) (inputs? : Option Inputs) : OpResult :=
  let inputs := resolveInputs year inputs?
  let hdr := ["Starting debate on motion: " ++ dindex inputs "motion",
              "Current year: " ++ dindex inputs "current_year",
              dashes]
  match crew.kickoff inputs with
  | .ok result =>
      { calls := [.kickoff inputs]
        out := hdr ++ ["\n" ++ equalsLine, "DEBATE COMPLETED", equalsLine,
                       "Result: " ++ result]
        err := []
        res := .ok ()
        finalInputs := some inputs }
  | .error .keyboardInterrupt =>
      { calls := [.kickoff inputs]
        out := hdr
        err := []
        res := .error .keyboardInterrupt
        finalInputs := some inputs }
  | .error (.exc msg) =>
      { calls := [.kickoff inputs]
        out := hdr ++ ["❌ Error occurred while running the crew: " ++ msg]
        err := []
        res := .error (.exc msg)
        finalInputs := some inputs }

/-- The function `train(n_iterations=5, filename="training_results.json", inputs=None)`. -/
def train (crew : Crew) (year : Nat) (nIterations : Int) (filename : String)
    (inputs? : Option Inputs) : OpResult :=
  let inputs := resolveInputs year inputs?
  let hdr := ["Training crew for " ++ toString nIterations ++ " iterations...",
              "Motion: " ++ dindex inputs "motion",
              "Results will be saved to: " ++ filename,
              dashes]
  match crew.train nIterations filename inputs with
  | .ok _ =>
      { calls := [.train nIterations filename inputs]
        out := hdr ++ ["✅ Training completed successfully! Results saved to " ++ filename]
        err := []
        res := .ok ()
        finalInputs := some inputs }
  | .error .keyboardInterrupt =>
      { calls := [.train nIterations filename inputs]
        out := hdr
        err := []
        res := .error .keyboardInterrupt
        finalInputs := some inputs }
  | .error (.exc msg) =>
      { calls := [.train nIterations filename inputs]
        out := hdr ++ ["❌ Error occurred while training the crew: " ++ msg]
        err := []
        res := .error (.exc msg)
        finalInputs := some inputs }

/-- The function `replay(task_id)`. -/
def replay (crew : Crew) (taskId : String) : OpResult :=
  let hdr := ["Replaying crew execution from task: " ++ taskId, dashes]
  match crew.replay taskId with
  | .ok result =>
      { calls := [.replay taskId]
        out := hdr ++ ["✅ Replay completed successfully!", "Result: " ++ result]
        err := []
        res := .ok ()
        finalInputs := none }
  | .error .keyboardInterrupt =>
      { calls := [.replay taskId]
        out := hdr
        err := []
        res := .error .keyboardInterrupt
        finalInputs := none }
  | .error (.exc msg) =>
      { calls := [.replay taskId]
        out := hdr ++ ["❌ Error occurred while replaying the crew: " ++ msg]
        err := []
        res := .error (.exc msg)
        finalInputs := none }

/-- The function `test(n_iterations=3, eval_llm="openai/gpt-4o-mini", inputs=None)`. -/
def test (crew : Crew) (year : Nat) (nIterations : Int) (evalLLM : String)
    (inputs? : Option Inputs) : OpResult :=
  let inputs := resolveInputs year inputs?
  let hdr := ["Testing crew for " ++ toString nIterations ++ " iterations...",
              "Evaluation LLM: " ++ evalLLM,
              "Motion: " ++ dindex inputs "motion",
              dashes]
  match crew.test nIterations evalLLM inputs with
  | .ok result =>
      { calls := [.test nIterations evalLLM inputs]
        out := hdr ++ ["✅ Testing completed successfully!", "Test results: " ++ result]
        err := []
        res := .ok ()
        finalInputs := some inputs }
  | .error .keyboardInterrupt =>
      { calls := [.test nIterations evalLLM inputs]
        out := hdr
        err := []
        res := .error .keyboardInterrupt
        finalInputs := some inputs }
  | .error (.exc msg) =>
      { calls := [.test nIterations evalLLM inputs]
        out := hdr ++ ["❌ Error occurred while testing the crew: " ++ msg]
        err := []
        res := .error (.exc msg)
        finalInputs := some inputs }

theorem run_calls (crew : Crew) (year : Nat) (inputs? : Option Inputs) :
    (run crew year inputs?).calls = [.kickoff (resolveInputs year inputs?)] := by
  unfold run
  dsimp only
  split <;> rfl

theorem train_calls (crew : Crew) (year : Nat) (n : Int) (f : String)
    (inputs? : Option Inputs) :
    (train crew year n f inputs?).calls = [.train n f (resolveInputs year inputs?)] := by
  unfold train
  dsimp only
  split <;> rfl

theorem replay_calls (crew : Crew) (t : String) :
    (replay crew t).calls = [.replay t] := by
  unfold replay
  split <;> rfl

theorem test_calls (crew : Crew) (year : Nat) (n : Int) (e : String)
    (inputs? : Option Inputs) :
    (test crew year n e inputs?).calls = [.test n e (resolveInputs year inputs?)] := by
  unfold test
  dsimp only
  split <;> rfl

theorem run_finalInputs (crew : Crew) (year : Nat) (inputs? : Option Inputs) :
    (run crew year inputs?).finalInputs = some (resolveInputs year inputs?) := by
  unfold run
  dsimp only
  split <;> rfl

theorem train_finalInputs (crew : Crew) (year : Nat) (n : Int) (f : String)
    (inputs? : Option Inputs) :
    (train crew year n f inputs?).finalInputs = some (resolveInputs year inputs?) := by
  unfold train
  dsimp only
  split <;> rfl

theorem test_finalInputs (crew : Crew) (year : Nat) (n : Int) (e : String)
    (inputs? : Option Inputs) :
    (test crew year n e inputs?).finalInputs = some (resolveInputs year inputs?) := by
  unfold test
  dsimp only
  split <;> rfl

/-- The positional `action` argument (argparse `choices=["run","train","replay","test"]`). -/
inductive Action where
  | run : Action
  | train : Action
  | replay : Action
  | test : Action
deriving DecidableEq

/-- A parsed-but-raw command line: for each optional flag, `none` when the
flag is absent.  Invalid command lines (bad action, non-integer iterations)
are rejected by argparse before `main`'s body runs and are out of scope. -/
structure CLI where
  action : Action
  motion : Option String := none
  iterations : Option Int := none
  filename : Option String := none
  evalLLM : Option String := none
  taskId : Option String := none

/-- The `args` namespace object produced by `parser.parse_args()`. -/
structure Args where
  action : Action
  motion : Option String
  iterations : Int
  filename : String
  evalLLM : String
  taskId : Option String

/-- argparse semantics of the parser declared in `main`: flags with a
`default=` fall back to it, `--motion` and `--task-id` default to `None`. -/
def parseArgs (c : CLI) : Args :=
  { action := c.action
    motion := c.motion
    iterations := c.iterations.getD 5
    filename := c.filename.getD "training_results.json"
    evalLLM := c.evalLLM.getD "openai/gpt-4o-mini"
    taskId := c.taskId }

/-- The `# Prepare inputs` block of `main`: start from the defaults and
override `motion` when `args.motion` is truthy. -/
def mainInputs (year : Nat) (motion? : Option String) : Inputs :=
  match motion? with
  | none => get_default_inputs year
  | some m => if m = "" then get_default_inputs year
              else dset (get_default_inputs year) "motion" m

/-- How the process ends: a `sys.exit`/normal return with an exit code, or
an exception that escapes all handlers and reaches the interpreter. -/
inductive ProcEnd where
  | exit (code : Nat) : ProcEnd
  | uncaughtRaise (e : PyExc) : ProcEnd
deriving DecidableEq

/-- The exit status the operating system observes: CPython exits with 1 on
an uncaught ordinary exception and with 130 on an uncaught
`KeyboardInterrupt`. -/
def ProcEnd.code : ProcEnd → Nat
  | .exit c => c
  | .uncaughtRaise .keyboardInterrupt => 130
  | .uncaughtRaise (.exc _) => 1

/-- Observable behaviour of one whole process invocation. -/
structure MainResult where
  calls : List CrewCall
  out : List String
  err : List String
  ending : ProcEnd

/-- The `try/except KeyboardInterrupt/except Exception` wrapper in `main`
around one delegated operation, followed by process exit. -/
def wrapMain (r : OpResult) : MainResult :=
  match r.res with
  | .ok _ =>
      { calls := r.calls, out := r.out, err := r.err, ending := .exit 0 }
  | .error .keyboardInterrupt =>
      { calls := r.calls
        out := r.out ++ ["\n⚠️  Operation cancelled by user"]
        err := r.err
        ending := .exit 1 }
  | .error (.exc msg) =>
      { calls := r.calls
        out := r.out ++ ["❌ Fatal error: " ++ msg]
        err := r.err
        ending := .exit 1 }

/-- The function `main()`: parse arguments, prepare inputs, dispatch. -/
def main (crew : Crew) (year : Nat) (cli : CLI) : MainResult :=
  let args := parseArgs cli
  let inputs := mainInputs year args.motion
  match args.action with
  | .run => wrapMain (run crew year (some inputs))
  | .train => wrapMain (train crew year args.iterations args.filename (some inputs))
  | .replay =>
      if truthy args.taskId then
        match args.taskId with
        | some t => wrapMain (replay crew t)
        | none => wrapMain (replay crew "")
      else
        { calls := []
          out := ["❌ Error: task-id is required for replay action"]
          err := []
          ending := .exit 1 }
  | .test => wrapMain (test crew year args.iterations args.evalLLM (some inputs))

/-- The `if __name__ == "__main__"` block: with exactly one argv entry
(the script name) call `run()` directly — outside any handler — otherwise
call `main()`.  `cl = none` models the bare invocation. -/
def entryPoint (crew : Crew) (year : Nat) (cl : Option CLI) : MainResult :=
  match cl with
  | none =>
      let r := run crew year none
      { calls := r.calls
        out := "Running debate crew with default settings..." :: r.out
        err := r.err
        ending := match r.res with
          | .ok _ => .exit 0
          | .error e => .uncaughtRaise e }
  | some cli => main crew year cli

/-- The delegated call `main` will make for given parsed arguments, if any. -/
def plannedCall (year : Nat) (args : Args) : Option CrewCall :=
  let inputs := mainInputs year args.motion
  match args.action with
  | .run => some (.kickoff (validate_inputs year inputs))
  | .train => some (.train args.iterations args.filename (validate_inputs year inputs))
  | .replay =>
      match args.taskId with
      | none => none
      | some t => if t = "" then none else some (.replay t)
  | .test => some (.test args.iterations args.evalLLM (validate_inputs year inputs))

theorem wrapMain_calls (r : OpResult) : (wrapMain r).calls = r.calls := by
  unfold wrapMain
  split <;> rfl

theorem wrapMain_err (r : OpResult) : (wrapMain r).err = r.err := by
  unfold wrapMain
  split <;> rfl

theorem resolveInputs_some (year : Nat) (m : Inputs) :
    resolveInputs year (some m) = validate_inputs year m := rfl

/-- `main` makes exactly the planned delegated call (or none at all). -/
theorem main_calls (crew : Crew) (year : Nat) (cli : CLI) :
    (main crew year cli).calls = (plannedCall year (parseArgs cli)).toList := by
  obtain ⟨act, mo, it, fn, el, tid⟩ := cli
  cases act with
  | run => simp [main, plannedCall, parseArgs, wrapMain_calls, run_calls, resolveInputs_some]
  | train => simp [main, plannedCall, parseArgs, wrapMain_calls, train_calls, resolveInputs_some]
  | replay =>
      cases tid with
      | none => simp [main, plannedCall, parseArgs, truthy]
      | some t =>
          by_cases he : t = ""
          · subst he
            simp [main, plannedCall, parseArgs, truthy]
          · simp [main, plannedCall, parseArgs, truthy, he, wrapMain_calls, replay_calls]
  | test => simp [main, plannedCall, parseArgs, wrapMain_calls, test_calls, resolveInputs_some]

theorem resolveInputs_none (year : Nat) :
    resolveInputs year none = get_default_inputs year := by
  unfold resolveInputs
  exact validate_default year

/-- With no truthy `motion` supplied (or no inputs at all), the validated
inputs carry the default motion. -/
theorem resolve_motion_default (year : Nat) (inputs? : Option Inputs)
    (h : ∀ m, inputs? = some m → truthy (dget m "motion") = false) :
    dget (resolveInputs year inputs?) "motion" = some defaultMotion := by
  cases inputs? with
  | none => rw [resolveInputs_none, dget_default_motion]
  | some m =>
      rw [resolveInputs_some, validate_motion_lookup, h m rfl]
      simp

/-- With no truthy `current_year` supplied (or no inputs at all), the
validated inputs carry the stringified current year. -/
theorem resolve_cy_default (year : Nat) (inputs? : Option Inputs)
    (h : ∀ m, inputs? = some m → truthy (dget m "current_year") = false) :
    dget (resolveInputs year inputs?) "current_year" = some (toString year) := by
  cases inputs? with
  | none => rw [resolveInputs_none, dget_default_cy]
  | some m =>
      rw [resolveInputs_some, validate_cy_lookup, h m rfl]
      simp

theorem run_err (crew : Crew) (year : Nat) (inputs? : Option Inputs) :
    (run crew year inputs?).err = [] := by
  unfold run
  dsimp only
  split <;> rfl

theorem train_err (crew : Crew) (year : Nat) (n : Int) (f : String)
    (inputs? : Option Inputs) :
    (train crew year n f inputs?).err = [] := by
  unfold train
  dsimp only
  split <;> rfl

theorem replay_err (crew : Crew) (t : String) : (replay crew t).err = [] := by
  unfold replay
  dsimp only
  split <;> rfl

theorem test_err (crew : Crew) (year : Nat) (n : Int) (e : String)
    (inputs? : Option Inputs) :
    (test crew year n e inputs?).err = [] := by
  unfold test
  dsimp only
  split <;> rfl

/-- The message prefix each module-level function prints when the
delegated call raises an ordinary exception. -/
def opErrLine : Action → String → String
  | .run, msg => "❌ Error occurred while running the crew: " ++ msg
  | .train, msg => "❌ Error occurred while training the crew: " ++ msg
  | .replay, msg => "❌ Error occurred while replaying the crew: " ++ msg
  | .test, msg => "❌ Error occurred while testing the crew: " ++ msg

theorem run_exc (crew : Crew) (year : Nat) (inputs? : Option Inputs) (msg : String)
    (h : crew.kickoff (resolveInputs year inputs?) = .error (.exc msg)) :
    (run crew year inputs?).res = .error (.exc msg) ∧
    opErrLine .run msg ∈ (run crew year inputs?).out := by
  unfold run
  dsimp only
  rw [h]
  exact ⟨rfl, by simp [opErrLine]⟩

theorem train_exc (crew : Crew) (year : Nat) (n : Int) (f : String)
    (inputs? : Option Inputs) (msg : String)
    (h : crew.train n f (resolveInputs year inputs?) = .error (.exc msg)) :
    (train crew year n f inputs?).res = .error (.exc msg) ∧
    opErrLine .train msg ∈ (train crew year n f inputs?).out := by
  unfold train
  dsimp only
  rw [h]
  exact ⟨rfl, by simp [opErrLine]⟩

theorem replay_exc (crew : Crew) (t : String) (msg : String)
    (h : crew.replay t = .error (.exc msg)) :
    (replay crew t).res = .error (.exc msg) ∧
    opErrLine .replay msg ∈ (replay crew t).out := by
  unfold replay
  dsimp only
  rw [h]
  exact ⟨rfl, by simp [opErrLine]⟩

theorem test_exc (crew : Crew) (year : Nat) (n : Int) (e : String)
    (inputs? : Option Inputs) (msg : String)
    (h : crew.test n e (resolveInputs year inputs?) = .error (.exc msg)) :
    (test crew year n e inputs?).res = .error (.exc msg) ∧
    opErrLine .test msg ∈ (test crew year n e inputs?).out := by
  unfold test
  dsimp only
  rw [h]
  exact ⟨rfl, by simp [opErrLine]⟩

theorem run_ki (crew : Crew) (year : Nat) (inputs? : Option Inputs)
    (h : crew.kickoff (resolveInputs year inputs?) = .error .keyboardInterrupt) :
    (run crew year inputs?).res = .error .keyboardInterrupt := by
  unfold run
  dsimp only
  rw [h]

theorem train_ki (crew : Crew) (year : Nat) (n : Int) (f : String)
    (inputs? : Option Inputs)
    (h : crew.train n f (resolveInputs year inputs?) = .error .keyboardInterrupt) :
    (train crew year n f inputs?).res = .error .keyboardInterrupt := by
  unfold train
  dsimp only
  rw [h]

theorem replay_ki (crew : Crew) (t : String)
    (h : crew.replay t = .error .keyboardInterrupt) :
    (replay crew t).res = .error .keyboardInterrupt := by
  unfold replay
  dsimp only
  rw [h]

theorem test_ki (crew : Crew) (year : Nat) (n : Int) (e : String)
    (inputs? : Option Inputs)
    (h : crew.test n e (resolveInputs year inputs?) = .error .keyboardInterrupt) :
    (test crew year n e inputs?).res = .error .keyboardInterrupt := by
  unfold test
  dsimp only
  rw [h]

theorem wrapMain_exc (r : OpResult) (msg : String) (h : r.res = .error (.exc msg)) :
    (wrapMain r).ending = .exit 1 ∧
    (wrapMain r).out = r.out ++ ["❌ Fatal error: " ++ msg] := by
  unfold wrapMain
  rw [h]
  exact ⟨rfl, rfl⟩

theorem wrapMain_ki (r : OpResult) (h : r.res = .error .keyboardInterrupt) :
    (wrapMain r).ending = .exit 1 ∧
    (wrapMain r).out = r.out ++ ["\n⚠️  Operation cancelled by user"] := by
  unfold wrapMain
  rw [h]
  exact ⟨rfl, rfl⟩

/-- A framework stub whose operations all succeed. -/
def crewOk : Crew :=
  { kickoff := fun _ => .ok "done"
    train := fun _ _ _ => .ok "done"
    replay := fun _ => .ok "done"
    test := fun _ _ _ => .ok "done" }

/-- A framework stub whose operations all raise an ordinary exception. -/
def crewBoom : Crew :=
  { kickoff := fun _ => .error (.exc "boom")
    train := fun _ _ _ => .error (.exc "boom")
    replay := fun _ => .error (.exc "boom")
    test := fun _ _ _ => .error (.exc "boom") }

/-- A framework stub whose operations all raise `KeyboardInterrupt`. -/
def crewInterrupt : Crew :=
  { kickoff := fun _ => .error .keyboardInterrupt
    train := fun _ _ _ => .error .keyboardInterrupt
    replay := fun _ => .error .keyboardInterrupt
    test := fun _ _ _ => .error .keyboardInterrupt }

/-- C1: for every invocation of run, train, or test in which no motion
value is supplied (the inputs mapping is absent, or its motion key is
missing or empty), the input mapping passed to the delegated framework
operation has motion equal to the fixed default sentence. -/
theorem C1_default_motion (crew : Crew) (year : Nat) (inputs? : Option Inputs)
    (n : Int) (f e : String)
    (h : ∀ m, inputs? = some m → truthy (dget m "motion") = false) :
    (∀ c ∈ (run crew year inputs?).calls, ∀ i, c.argInputs = some i →
        dget i "motion" = some defaultMotion) ∧
    (∀ c ∈ (train crew year n f inputs?).calls, ∀ i, c.argInputs = some i →
        dget i "motion" = some defaultMotion) ∧
    (∀ c ∈ (test crew year n e inputs?).calls, ∀ i, c.argInputs = some i →
        dget i "motion" = some defaultMotion) := by
  have hm := resolve_motion_default year inputs? h
  refine ⟨?_, ?_, ?_⟩
  · intro c hcall i hi
    rw [run_calls] at hcall
    simp only [List.mem_singleton] at hcall
    subst hcall
    simp only [CrewCall.argInputs, Option.some.injEq] at hi
    rw [← hi]
    exact hm
  · intro c hcall i hi
    rw [train_calls] at hcall
    simp only [List.mem_singleton] at hcall
    subst hcall
    simp only [CrewCall.argInputs, Option.some.injEq] at hi
    rw [← hi]
    exact hm
  · intro c hcall i hi
    rw [test_calls] at hcall
    simp only [List.mem_singleton] at hcall
    subst hcall
    simp only [CrewCall.argInputs, Option.some.injEq] at hi
    rw [← hi]
    exact hm

/-- C2: for every invocation of run, train, or test in which no
current-year value is supplied, the input mapping passed to the delegated
framework operation has current_year equal to the string form of the
current calendar year. -/
theorem C2_default_current_year (crew : Crew) (year : Nat) (inputs? : Option Inputs)
    (n : Int) (f e : String)
    (h : ∀ m, inputs? = some m → truthy (dget m "current_year") = false) :
    (∀ c ∈ (run crew year inputs?).calls, ∀ i, c.argInputs = some i →
        dget i "current_year" = some (toString year)) ∧
    (∀ c ∈ (train crew year n f inputs?).calls, ∀ i, c.argInputs = some i →
        dget i "current_year" = some (toString year)) ∧
    (∀ c ∈ (test crew year n e inputs?).calls, ∀ i, c.argInputs = some i →
        dget i "current_year" = some (toString year)) := by
  have hm := resolve_cy_default year inputs? h
  refine ⟨?_, ?_, ?_⟩
  · intro c hcall i hi
    rw [run_calls] at hcall
    simp only [List.mem_singleton] at hcall
    subst hcall
    simp only [CrewCall.argInputs, Option.some.injEq] at hi
    rw [← hi]
    exact hm
  · intro c hcall i hi
    rw [train_calls] at hcall
    simp only [List.mem_singleton] at hcall
    subst hcall
    simp only [CrewCall.argInputs, Option.some.injEq] at hi
    rw [← hi]
    exact hm
  · intro c hcall i hi
    rw [test_calls] at hcall
    simp only [List.mem_singleton] at hcall
    subst hcall
    simp only [CrewCall.argInputs, Option.some.injEq] at hi
    rw [← hi]
    exact hm

/-- C3: a replay invocation whose task-id flag is absent or empty prints
an error, exits with status 1, and never calls the delegated replay
operation. -/
theorem C3_replay_requires_task_id (crew : Crew) (year : Nat) (cli : CLI)
    (ha : cli.action = .replay)
    (ht : ∀ t, cli.taskId = some t → t = "") :
    (main crew year cli).calls = [] ∧
    (main crew year cli).ending = .exit 1 ∧
    "❌ Error: task-id is required for replay action" ∈ (main crew year cli).out := by
  have hmain : main crew year cli =
      { calls := []
        out := ["❌ Error: task-id is required for replay action"]
        err := []
        ending := .exit 1 } := by
    unfold main
    simp only [parseArgs, ha]
    cases htid : cli.taskId with
    | none => simp [truthy]
    | some t =>
        have he := ht t htid
        subst he
        simp [truthy]
  rw [hmain]
  exact ⟨rfl, rfl, by simp⟩

/-- C5: the zero-argument invocation and the explicit run action with
default inputs hand the delegated execute operation the same input
mapping: default motion plus the stringified current year. -/
theorem C5_no_args_equals_run (crew : Crew) (year : Nat) :
    (entryPoint crew year none).calls =
      (entryPoint crew year (some { action := .run })).calls ∧
    (entryPoint crew year none).calls =
      [CrewCall.kickoff (get_default_inputs year)] := by
  have h1 : (entryPoint crew year none).calls =
      [CrewCall.kickoff (get_default_inputs year)] := by
    unfold entryPoint
    dsimp only
    rw [run_calls, resolveInputs_none]
  have h2 : (entryPoint crew year (some { action := .run })).calls =
      [CrewCall.kickoff (get_default_inputs year)] := by
    show (main crew year { action := .run }).calls = _
    rw [main_calls]
    simp only [plannedCall, parseArgs]
    show (some (CrewCall.kickoff (validate_inputs year (mainInputs year none)))).toList = _
    rw [show mainInputs year none = get_default_inputs year from rfl, validate_default]
    rfl
  exact ⟨h1.trans h2.symm, h1⟩

/-- C6: a train or test invocation without the iterations flag calls the
delegated operation with an iteration count of 5. -/
theorem C6_default_iterations (crew : Crew) (year : Nat) (cli : CLI)
    (ha : cli.action = .train ∨ cli.action = .test)
    (hi : cli.iterations = none) :
    ∃ c, (main crew year cli).calls = [c] ∧ c.argIterations = some 5 := by
  rw [main_calls]
  rcases ha with ha | ha
  · refine ⟨CrewCall.train 5 (parseArgs cli).filename
      (validate_inputs year (mainInputs year (parseArgs cli).motion)), ?_, rfl⟩
    simp [plannedCall, parseArgs, ha, hi]
  · refine ⟨CrewCall.test 5 (parseArgs cli).evalLLM
      (validate_inputs year (mainInputs year (parseArgs cli).motion)), ?_, rfl⟩
    simp [plannedCall, parseArgs, ha, hi]

/-- C7: a run invocation with a non-empty motion flag passes exactly the
mapping with that motion and the default stringified current year to the
delegated execute operation. -/
theorem C7_motion_override (crew : Crew) (year : Nat) (cli : CLI) (m : String)
    (ha : cli.action = .run) (hm : cli.motion = some m) (hne : m ≠ "") :
    (main crew year cli).calls =
      [CrewCall.kickoff [("motion", m), ("current_year", toString year)]] := by
  rw [main_calls]
  simp only [plannedCall, parseArgs, ha, hm]
  have h1 : mainInputs year (some m) = [("motion", m), ("current_year", toString year)] := by
    simp only [mainInputs]
    rw [if_neg hne]
    simp [get_default_inputs, dset]
  have h2 : validate_inputs year [("motion", m), ("current_year", toString year)] =
      [("motion", m), ("current_year", toString year)] := by
    apply validate_noop
    · simp [dget, truthy, hne]
    · have hg : dget [("motion", m), ("current_year", toString year)] "current_year" =
          some (toString year) := by
        simp [dget]
      rw [hg]
      exact (truthy_some _).mpr (toString_nat_ne_empty year)
  rw [h1, h2]
  rfl

/-- When the delegated operation dispatched by `main` raises an ordinary
exception, the dispatcher prints the prefixed message, prints the
fatal-error message, exits with status 1, and writes nothing to standard
error. -/
theorem main_exc_reporting (crew : Crew) (year : Nat) (cli : CLI)
    (c : CrewCall) (msg : String)
    (hc : plannedCall year (parseArgs cli) = some c)
    (hr : crew.callOp c = .error (.exc msg)) :
    (main crew year cli).ending = .exit 1 ∧
    ("❌ Fatal error: " ++ msg) ∈ (main crew year cli).out ∧
    opErrLine cli.action msg ∈ (main crew year cli).out ∧
    (main crew year cli).err = [] := by
  obtain ⟨act, mo, it, fn, el, tid⟩ := cli
  cases act with
  | run =>
      simp only [plannedCall, parseArgs, Option.some.injEq] at hc
      subst hc
      simp only [Crew.callOp] at hr
      have hres := run_exc crew year (some (mainInputs year mo)) msg
        (by rw [resolveInputs_some]; exact hr)
      have hw := wrapMain_exc _ msg hres.1
      have hmm : main crew year
          { action := .run, motion := mo, iterations := it, filename := fn,
            evalLLM := el, taskId := tid } =
          wrapMain (run crew year (some (mainInputs year mo))) := rfl
      rw [hmm]
      refine ⟨hw.1, ?_, ?_, ?_⟩
      · rw [hw.2]; simp
      · rw [hw.2]; exact List.mem_append_left _ hres.2
      · rw [wrapMain_err, run_err]
  | train =>
      simp only [plannedCall, parseArgs, Option.some.injEq] at hc
      subst hc
      simp only [Crew.callOp] at hr
      have hres := train_exc crew year (it.getD 5) (fn.getD "training_results.json")
        (some (mainInputs year mo)) msg (by rw [resolveInputs_some]; exact hr)
      have hw := wrapMain_exc _ msg hres.1
      have hmm : main crew year
          { action := .train, motion := mo, iterations := it, filename := fn,
            evalLLM := el, taskId := tid } =
          wrapMain (train crew year (it.getD 5) (fn.getD "training_results.json")
            (some (mainInputs year mo))) := rfl
      rw [hmm]
      refine ⟨hw.1, ?_, ?_, ?_⟩
      · rw [hw.2]; simp
      · rw [hw.2]; exact List.mem_append_left _ hres.2
      · rw [wrapMain_err, train_err]
  | replay =>
      cases tid with
      | none => simp [plannedCall, parseArgs] at hc
      | some t =>
          by_cases he : t = ""
          · subst he
            simp [plannedCall, parseArgs] at hc
          · simp only [plannedCall, parseArgs, if_neg he, Option.some.injEq] at hc
            subst hc
            simp only [Crew.callOp] at hr
            have hres := replay_exc crew t msg hr
            have hw := wrapMain_exc _ msg hres.1
            have hmm : main crew year
                { action := .replay, motion := mo, iterations := it, filename := fn,
                  evalLLM := el, taskId := some t } =
                wrapMain (replay crew t) := by
              unfold main
              simp [parseArgs, truthy, he]
            rw [hmm]
            refine ⟨hw.1, ?_, ?_, ?_⟩
            · rw [hw.2]; simp
            · rw [hw.2]; exact List.mem_append_left _ hres.2
            · rw [wrapMain_err, replay_err]
  | test =>
      simp only [plannedCall, parseArgs, Option.some.injEq] at hc
      subst hc
      simp only [Crew.callOp] at hr
      have hres := test_exc crew year (it.getD 5) (el.getD "openai/gpt-4o-mini")
        (some (mainInputs year mo)) msg (by rw [resolveInputs_some]; exact hr)
      have hw := wrapMain_exc _ msg hres.1
      have hmm : main crew year
          { action := .test, motion := mo, iterations := it, filename := fn,
            evalLLM := el, taskId := tid } =
          wrapMain (test crew year (it.getD 5) (el.getD "openai/gpt-4o-mini")
            (some (mainInputs year mo))) := rfl
      rw [hmm]
      refine ⟨hw.1, ?_, ?_, ?_⟩
      · rw [hw.2]; simp
      · rw [hw.2]; exact List.mem_append_left _ hres.2
      · rw [wrapMain_err, test_err]

/-- The delegated call a whole process invocation will make, if any:
with zero command-line arguments the `__main__` block calls `run()` on
the default inputs; otherwise `main` dispatches. -/
def plannedCallEntry (year : Nat) (cl : Option CLI) : Option CrewCall :=
  match cl with
  | none => some (.kickoff (resolveInputs year none))
  | some cli => plannedCall year (parseArgs cli)

/-- The operation verb a whole process invocation executes: the bare
invocation runs the `run` action. -/
def entryAction : Option CLI → Action
  | none => .run
  | some cli => cli.action

theorem entryPoint_none_out (crew : Crew) (year : Nat) :
    (entryPoint crew year none).out =
      "Running debate crew with default settings..." :: (run crew year none).out := rfl

theorem entryPoint_none_err (crew : Crew) (year : Nat) :
    (entryPoint crew year none).err = (run crew year none).err := rfl

theorem entryPoint_some (crew : Crew) (year : Nat) (cli : CLI) :
    entryPoint crew year (some cli) = main crew year cli := rfl

/-- C4 (amended): for every invocation in which a delegated framework
operation raises an ordinary exception, a prefixed message containing
the original exception text is printed to standard output (not standard
error), the exception is re-raised, and the process terminates with a
non-zero exit status after printing an error message containing the
exception text: through the dispatcher it is caught at the top level
(fatal-error message, exit status 1), on the bare invocation it escapes
uncaught; standard error receives nothing either way. -/
theorem C4_exception_reporting (crew : Crew) (year : Nat) (cl : Option CLI)
    (c : CrewCall) (msg : String)
    (hc : plannedCallEntry year cl = some c)
    (hr : crew.callOp c = .error (.exc msg)) :
    opErrLine (entryAction cl) msg ∈ (entryPoint crew year cl).out ∧
    (entryPoint crew year cl).ending.code ≠ 0 ∧
    (((entryPoint crew year cl).ending = .exit 1 ∧
        ("❌ Fatal error: " ++ msg) ∈ (entryPoint crew year cl).out) ∨
      (entryPoint crew year cl).ending = .uncaughtRaise (.exc msg)) ∧
    (entryPoint crew year cl).err = [] := by
  cases cl with
  | none =>
      simp only [plannedCallEntry, Option.some.injEq] at hc
      subst hc
      simp only [Crew.callOp] at hr
      have hres := run_exc crew year none msg hr
      have hend : (entryPoint crew year none).ending = .uncaughtRaise (.exc msg) := by
        unfold entryPoint
        dsimp only
        rw [hres.1]
      refine ⟨?_, ?_, Or.inr hend, ?_⟩
      · rw [entryPoint_none_out]
        exact List.mem_cons_of_mem _ hres.2
      · rw [hend]
        simp [ProcEnd.code]
      · rw [entryPoint_none_err, run_err]
  | some cli =>
      have h := main_exc_reporting crew year cli c msg hc hr
      rw [entryPoint_some]
      refine ⟨h.2.2.1, ?_, Or.inl ⟨h.1, h.2.1⟩, h.2.2.2⟩
      rw [h.1]
      simp [ProcEnd.code]

/-- C4 counterexample: the dispatched run operation raises, the prefixed
message and the fatal message are printed, the process exits with status
1 — yet standard error receives nothing, refuting the claim that the
message is logged to standard error. -/
theorem C4_counterexample :
    (main crewBoom 2026 { action := .run }).err = [] ∧
    opErrLine .run "boom" ∈ (main crewBoom 2026 { action := .run }).out ∧
    ("❌ Fatal error: " ++ "boom") ∈ (main crewBoom 2026 { action := .run }).out ∧
    (main crewBoom 2026 { action := .run }).ending = .exit 1 := by
  decide

/-- C8 (amended): for invocations routed through `main` (at least one
command-line argument), a KeyboardInterrupt raised during the delegated
call is caught at the top level, the cancellation message is printed, and
the process exits with status 1.  The zero-argument invocation calls
`run()` outside that handler, so there the interrupt escapes uncaught. -/
theorem C8_interrupt_handling (crew : Crew) (year : Nat) (cli : CLI)
    (c : CrewCall)
    (hc : plannedCall year (parseArgs cli) = some c)
    (hr : crew.callOp c = .error .keyboardInterrupt) :
    (main crew year cli).ending = .exit 1 ∧
    "\n⚠️  Operation cancelled by user" ∈ (main crew year cli).out := by
  obtain ⟨act, mo, it, fn, el, tid⟩ := cli
  cases act with
  | run =>
      simp only [plannedCall, parseArgs, Option.some.injEq] at hc
      subst hc
      simp only [Crew.callOp] at hr
      have hres := run_ki crew year (some (mainInputs year mo))
        (by rw [resolveInputs_some]; exact hr)
      have hw := wrapMain_ki _ hres
      have hmm : main crew year
          { action := .run, motion := mo, iterations := it, filename := fn,
            evalLLM := el, taskId := tid } =
          wrapMain (run crew year (some (mainInputs year mo))) := rfl
      rw [hmm]
      exact ⟨hw.1, by rw [hw.2]; simp⟩
  | train =>
      simp only [plannedCall, parseArgs, Option.some.injEq] at hc
      subst hc
      simp only [Crew.callOp] at hr
      have hres := train_ki crew year (it.getD 5) (fn.getD "training_results.json")
        (some (mainInputs year mo)) (by rw [resolveInputs_some]; exact hr)
      have hw := wrapMain_ki _ hres
      have hmm : main crew year
          { action := .train, motion := mo, iterations := it, filename := fn,
            evalLLM := el, taskId := tid } =
          wrapMain (train crew year (it.getD 5) (fn.getD "training_results.json")
            (some (mainInputs year mo))) := rfl
      rw [hmm]
      exact ⟨hw.1, by rw [hw.2]; simp⟩
  | replay =>
      cases tid with
      | none => simp [plannedCall, parseArgs] at hc
      | some t =>
          by_cases he : t = ""
          · subst he
            simp [plannedCall, parseArgs] at hc
          · simp only [plannedCall, parseArgs, if_neg he, Option.some.injEq] at hc
            subst hc
            simp only [Crew.callOp] at hr
            have hres := replay_ki crew t hr
            have hw := wrapMain_ki _ hres
            have hmm : main crew year
                { action := .replay, motion := mo, iterations := it, filename := fn,
                  evalLLM := el, taskId := some t } =
                wrapMain (replay crew t) := by
              unfold main
              simp [parseArgs, truthy, he]
            rw [hmm]
            exact ⟨hw.1, by rw [hw.2]; simp⟩
  | test =>
      simp only [plannedCall, parseArgs, Option.some.injEq] at hc
      subst hc
      simp only [Crew.callOp] at hr
      have hres := test_ki crew year (it.getD 5) (el.getD "openai/gpt-4o-mini")
        (some (mainInputs year mo)) (by rw [resolveInputs_some]; exact hr)
      have hw := wrapMain_ki _ hres
      have hmm : main crew year
          { action := .test, motion := mo, iterations := it, filename := fn,
            evalLLM := el, taskId := tid } =
          wrapMain (test crew year (it.getD 5) (el.getD "openai/gpt-4o-mini")
            (some (mainInputs year mo))) := rfl
      rw [hmm]
      exact ⟨hw.1, by rw [hw.2]; simp⟩

/-- C8 counterexample: with zero command-line arguments, `run()` is
invoked outside `main`'s handlers, so a KeyboardInterrupt during the
delegated call escapes uncaught: the process does not exit cleanly with
status 1 (CPython dies with status 130) and no cancellation message is
printed — refuting the claim for the zero-argument invocation. -/
theorem C8_counterexample :
    (entryPoint crewInterrupt 2026 none).ending = .uncaughtRaise .keyboardInterrupt ∧
    (entryPoint crewInterrupt 2026 none).ending ≠ .exit 1 ∧
    (entryPoint crewInterrupt 2026 none).ending.code = 130 ∧
    "\n⚠️  Operation cancelled by user" ∉ (entryPoint crewInterrupt 2026 none).out := by
  decide

/-- C9 (amended): the inputs dict is passed by reference and validation
fills defaults in place, so after `run`, `train` or `test` returns the
caller's mapping is the validated mapping: keys other than motion and
current_year keep their original values, and when motion and current_year
were already non-empty the caller's mapping is observably unchanged. -/
theorem C9_inputs_aliasing (crew : Crew) (year : Nat) (m : Inputs)
    (n : Int) (f e : String) :
    (run crew year (some m)).finalInputs = some (validate_inputs year m) ∧
    (train crew year n f (some m)).finalInputs = some (validate_inputs year m) ∧
    (test crew year n e (some m)).finalInputs = some (validate_inputs year m) ∧
    (∀ k, k ≠ "motion" → k ≠ "current_year" →
        dget (validate_inputs year m) k = dget m k) ∧
    (truthy (dget m "motion") = true → truthy (dget m "current_year") = true →
        (run crew year (some m)).finalInputs = some m ∧
        (train crew year n f (some m)).finalInputs = some m ∧
        (test crew year n e (some m)).finalInputs = some m) := by
  refine ⟨?_, ?_, ?_, validate_other_lookup year m, ?_⟩
  · rw [run_finalInputs, resolveInputs_some]
  · rw [train_finalInputs, resolveInputs_some]
  · rw [test_finalInputs, resolveInputs_some]
  · intro h1 h2
    have hv := validate_noop year m h1 h2
    refine ⟨?_, ?_, ?_⟩
    · rw [run_finalInputs, resolveInputs_some, hv]
    · rw [train_finalInputs, resolveInputs_some, hv]
    · rw [test_finalInputs, resolveInputs_some, hv]

/-- C9 counterexample: calling `run` with an empty caller-supplied dict
leaves the caller's dict non-empty afterwards (the defaults were filled
into it in place), refuting the claim that the caller's mapping is never
mutated. -/
theorem C9_counterexample :
    (run crewOk 2026 (some [])).finalInputs ≠ some ([] : Inputs) := by
  decide

/-- C10: `validate_inputs` is idempotent, its result always has truthy
motion and current_year values, and every other key keeps its original
value. -/
theorem C10_validate_algebra (year : Nat) (m : Inputs) :
    validate_inputs year (validate_inputs year m) = validate_inputs year m ∧
    truthy (dget (validate_inputs year m) "motion") = true ∧
    truthy (dget (validate_inputs year m) "current_year") = true ∧
    ∀ k, k ≠ "motion" → k ≠ "current_year" →
      dget (validate_inputs year m) k = dget m k := by
  refine ⟨validate_idem year m, ?_, ?_, validate_other_lookup year m⟩
  · rw [validate_motion_lookup]
    split
    · next h => exact h
    · decide
  · rw [validate_cy_lookup]
    split
    · next h => exact h
    · exact (truthy_some _).mpr (toString_nat_ne_empty year)

/-- C1 witness at a concrete empty-motion dict. -/
theorem C1_witness :
    (∀ c ∈ (run crewOk 2026 (some [("motion", "")])).calls, ∀ i,
        c.argInputs = some i → dget i "motion" = some defaultMotion) ∧
    (∀ c ∈ (train crewOk 2026 7 "f.json" (some [("motion", "")])).calls, ∀ i,
        c.argInputs = some i → dget i "motion" = some defaultMotion) ∧
    (∀ c ∈ (test crewOk 2026 7 "llm" (some [("motion", "")])).calls, ∀ i,
        c.argInputs = some i → dget i "motion" = some defaultMotion) :=
  C1_default_motion crewOk 2026 (some [("motion", "")]) 7 "f.json" "llm"
    (by intro m hm; cases hm; decide)

/-- C2 witness at a concrete dict with no current_year. -/
theorem C2_witness :
    (∀ c ∈ (run crewOk 2026 (some [])).calls, ∀ i,
        c.argInputs = some i → dget i "current_year" = some (toString 2026)) ∧
    (∀ c ∈ (train crewOk 2026 7 "f.json" (some [])).calls, ∀ i,
        c.argInputs = some i → dget i "current_year" = some (toString 2026)) ∧
    (∀ c ∈ (test crewOk 2026 7 "llm" (some [])).calls, ∀ i,
        c.argInputs = some i → dget i "current_year" = some (toString 2026)) :=
  C2_default_current_year crewOk 2026 (some []) 7 "f.json" "llm"
    (by intro m hm; cases hm; decide)

/-- C3 witness: replay with the task-id flag absent. -/
theorem C3_witness :
    (main crewOk 2026 { action := .replay }).calls = [] ∧
    (main crewOk 2026 { action := .replay }).ending = .exit 1 ∧
    "❌ Error: task-id is required for replay action" ∈
      (main crewOk 2026 { action := .replay }).out :=
  C3_replay_requires_task_id crewOk 2026 { action := .replay } rfl
    (fun _ h => nomatch h)

/-- C4 witness: a concrete train invocation whose delegated call raises. -/
theorem C4_witness :
    opErrLine .train "boom" ∈
      (entryPoint crewBoom 2026 (some { action := .train })).out ∧
    (entryPoint crewBoom 2026 (some { action := .train })).ending.code ≠ 0 ∧
    (((entryPoint crewBoom 2026 (some { action := .train })).ending = .exit 1 ∧
        ("❌ Fatal error: " ++ "boom") ∈
          (entryPoint crewBoom 2026 (some { action := .train })).out) ∨
      (entryPoint crewBoom 2026 (some { action := .train })).ending =
        .uncaughtRaise (.exc "boom")) ∧
    (entryPoint crewBoom 2026 (some { action := .train })).err = [] :=
  C4_exception_reporting crewBoom 2026 (some { action := .train })
    (CrewCall.train 5 "training_results.json"
      (validate_inputs 2026 (mainInputs 2026 none))) "boom" rfl rfl

/-- C6 witness: train without the iterations flag. -/
theorem C6_witness :
    ∃ c, (main crewOk 2026 { action := .train }).calls = [c] ∧
      c.argIterations = some 5 :=
  C6_default_iterations crewOk 2026 { action := .train } (Or.inl rfl) rfl

/-- C7 witness at the concrete motion from the specification example. -/
theorem C7_witness :
    (main crewOk 2026
        { action := .run, motion := some "Remote work improves productivity" }).calls =
      [CrewCall.kickoff [("motion", "Remote work improves productivity"),
                         ("current_year", "2026")]] := by
  rw [C7_motion_override crewOk 2026
    { action := .run, motion := some "Remote work improves productivity" }
    "Remote work improves productivity" rfl rfl (by decide)]
  decide

/-- C8 witness: a dispatcher run invocation interrupted by the user. -/
theorem C8_witness :
    (main crewInterrupt 2026 { action := .run }).ending = .exit 1 ∧
    "\n⚠️  Operation cancelled by user" ∈
      (main crewInterrupt 2026 { action := .run }).out :=
  C8_interrupt_handling crewInterrupt 2026 { action := .run }
    (CrewCall.kickoff (validate_inputs 2026 (mainInputs 2026 none))) rfl rfl

/-- C9 witness: extra keys survive validation and an already-complete
dict is left unchanged by run, train and test. -/
theorem C9_witness :
    dget (validate_inputs 2026 [("topic", "x")]) "topic" =
      dget [("topic", "x")] "topic" ∧
    ((run crewOk 2026 (some [("motion", "a"), ("current_year", "b")])).finalInputs =
        some [("motion", "a"), ("current_year", "b")] ∧
     (train crewOk 2026 7 "f.json"
        (some [("motion", "a"), ("current_year", "b")])).finalInputs =
        some [("motion", "a"), ("current_year", "b")] ∧
     (test crewOk 2026 7 "llm"
        (some [("motion", "a"), ("current_year", "b")])).finalInputs =
        some [("motion", "a"), ("current_year", "b")]) :=
  ⟨(C9_inputs_aliasing crewOk 2026 [("topic", "x")] 7 "f.json" "llm").2.2.2.1 "topic"
      (by decide) (by decide),
   (C9_inputs_aliasing crewOk 2026 [("motion", "a"), ("current_year", "b")]
      7 "f.json" "llm").2.2.2.2 (by decide) (by decide)⟩

/-- C10 witness: non-motion keys are preserved and validation is
idempotent at a concrete dict. -/
theorem C10_witness :
    dget (validate_inputs 2026 [("x", "1"), ("motion", "")]) "x" =
      dget [("x", "1"), ("motion", "")] "x" ∧
    validate_inputs 2026 (validate_inputs 2026 [("x", "1"), ("motion", "")]) =
      validate_inputs 2026 [("x", "1"), ("motion", "")] :=
  ⟨(C10_validate_algebra 2026 [("x", "1"), ("motion", "")]).2.2.2 "x"
      (by decide) (by decide),
   (C10_validate_algebra 2026 [("x", "1"), ("motion", "")]).1⟩

end DebateCrew
